import Mathlib

/-!
Verification development for the berth-ansible repository: two Ansible modules,
`library/berth_exec.py` (run a command in a container through the Berth terminal
WebSocket) and `library/berth_stack.py` (start a compose-stack operation over
REST and stream its output over a WebSocket).  Text is modelled as `List Char`
(Python `str` is a sequence of code points); the WebSocket receive loops are
modelled as functions over a list of timed receive events, where each event is
paired with the wall-clock seconds elapsed when its loop iteration starts.
-/

namespace Berth

/-- The ESC character `\x1b`. -/
def ESC : Char := Char.ofNat 27

/-- The BEL character `\x07`. -/
def BEL : Char := Char.ofNat 7

/-- Membership in the regex character class `[0-9;?]` (digits 48-57, `;` = 59, `?` = 63). -/
def isCsiBody (c : Char) : Bool :=
  decide ((48 ≤ c.toNat ∧ c.toNat ≤ 57) ∨ c.toNat = 59 ∨ c.toNat = 63)

/-- Membership in the regex character class `[a-zA-Z]`. -/
def isAsciiAlpha (c : Char) : Bool :=
  decide ((65 ≤ c.toNat ∧ c.toNat ≤ 90) ∨ (97 ≤ c.toNat ∧ c.toNat ≤ 122))

/--
One attempt of `ANSI_ESCAPE_REGEX` at the start of the list:
the pattern is the alternation `\x1b\[[0-9;?]*[a-zA-Z] | \x1b\][^\x07]*\x07`,
tried left branch first.  Returns the remainder after the match, if any.
`[0-9;?]*` is greedy and `[0-9;?]` is disjoint from `[a-zA-Z]`, so the match
takes the maximal body run and then requires a letter; `[^\x07]*\x07` matches
up to and including the first BEL.
-/
def matchAnsi : List Char → Option (List Char)
  | a :: b :: rest =>
    if a = ESC ∧ b = '[' then
      match rest.dropWhile isCsiBody with
      | c :: rest2 => if isAsciiAlpha c then some rest2 else none
      | [] => none
    else if a = ESC ∧ b = ']' then
      match rest.dropWhile (fun c => c != BEL) with
      | _ :: rest2 => some rest2
      | [] => none
    else none
  | _ => none

/--
Python `re.sub(pattern, '', text)` scans left to right: at each position it removes a
match of `matchAnsi` if one starts there, otherwise keeps the character and
moves on.  Fuel-indexed so the definition is structural; the fuel is always
instantiated with the length of the list, which suffices because a match
consumes at least three characters.
-/
def strip_ansi_fuel : Nat → List Char → List Char
  | 0, l => l
  | _ + 1, [] => []
  | fuel + 1, c :: cs =>
    match matchAnsi (c :: cs) with
    | some rest => strip_ansi_fuel fuel rest
    | none => c :: strip_ansi_fuel fuel cs

/-- Model of `BerthExecOperator.strip_ansi_codes`: remove ANSI escape sequences from text. -/
def strip_ansi_codes (l : List Char) : List Char :=
  strip_ansi_fuel l.length l

/-- Predicate: `text` contains an occurrence of the ANSI pattern at some position. -/
def containsAnsi : List Char → Bool
  | [] => false
  | c :: cs => (matchAnsi (c :: cs)).isSome || containsAnsi cs

lemma dropWhile_length_le (p : Char → Bool) :
    ∀ l : List Char, (l.dropWhile p).length ≤ l.length := by
  intro l
  induction l with
  | nil => simp [List.dropWhile]
  | cons c cs ih =>
    by_cases h : p c = true
    · simp only [List.dropWhile, h]
      exact Nat.le_succ_of_le ih
    · simp only [List.dropWhile, Bool.not_eq_true] at h
      simp [List.dropWhile, h]

lemma matchAnsi_length {l r : List Char} (h : matchAnsi l = some r) :
    r.length < l.length := by
  match l with
  | [] => simp [matchAnsi] at h
  | [a] => simp [matchAnsi] at h
  | a :: b :: rest =>
    have h1 := dropWhile_length_le isCsiBody rest
    have h2 := dropWhile_length_le (fun c => c != BEL) rest
    simp only [matchAnsi] at h
    split at h
    · split at h
      · split at h
        · rename_i heq _
          rw [Option.some_inj] at h
          subst h
          rw [heq] at h1
          simp only [List.length_cons] at h1 ⊢
          omega
        · exact absurd h (by simp)
      · exact absurd h (by simp)
    · split at h
      · split at h
        · rename_i heq
          rw [Option.some_inj] at h
          subst h
          rw [heq] at h2
          simp only [List.length_cons] at h2 ⊢
          omega
        · exact absurd h (by simp)
      · exact absurd h (by simp)

lemma strip_ansi_fuel_congr :
    ∀ f1 : Nat, ∀ l : List Char, l.length ≤ f1 →
      ∀ f2 : Nat, l.length ≤ f2 → strip_ansi_fuel f1 l = strip_ansi_fuel f2 l := by
  intro f1
  induction f1 with
  | zero =>
    intro l hl f2 _
    have : l = [] := List.length_eq_zero.mp (Nat.le_zero.mp hl)
    subst this
    cases f2 <;> rfl
  | succ f ih =>
    intro l hl f2 hl2
    match l with
    | [] => cases f2 <;> rfl
    | c :: cs =>
      match f2 with
      | 0 => exact absurd hl2 (by simp)
      | f2' + 1 =>
        simp only [strip_ansi_fuel]
        cases hm : matchAnsi (c :: cs) with
        | some rest =>
          have hr := matchAnsi_length hm
          simp only [List.length_cons] at hl hl2 hr
          exact ih rest (by omega) f2' (by omega)
        | none =>
          simp only [List.length_cons] at hl hl2
          have := ih cs (by omega) f2' (by omega)
          rw [this]

lemma strip_ansi_fuel_clean :
    ∀ f : Nat, ∀ l : List Char, l.length ≤ f → containsAnsi l = false →
      strip_ansi_fuel f l = l := by
  intro f
  induction f with
  | zero => intro l _ _; rfl
  | succ f ih =>
    intro l hl hc
    match l with
    | [] => rfl
    | c :: cs =>
      have h1 : matchAnsi (c :: cs) = none := by
        cases hm : matchAnsi (c :: cs) with
        | none => rfl
        | some r =>
          rw [containsAnsi, hm] at hc
          simp at hc
      have h2 : containsAnsi cs = false := by
        rw [containsAnsi, h1] at hc
        simpa using hc
      simp only [strip_ansi_fuel, h1]
      rw [ih cs (by simp only [List.length_cons] at hl; omega) h2]

lemma strip_ansi_fuel_step {l r : List Char} (f : Nat) (h : matchAnsi l = some r) :
    strip_ansi_fuel (f + 1) l = strip_ansi_fuel f r := by
  match l with
  | [] => simp [matchAnsi] at h
  | c :: cs => simp only [strip_ansi_fuel, h]

lemma dropWhile_all_append (p : Char → Bool) (c : Char) (r : List Char)
    (hc : p c = false) :
    ∀ pre : List Char, (∀ x ∈ pre, p x = true) →
      (pre ++ c :: r).dropWhile p = c :: r := by
  intro pre
  induction pre with
  | nil => intro _; simp [List.dropWhile, hc]
  | cons a pre ih =>
    intro hall
    have ha : p a = true := hall a (by simp)
    simp only [List.cons_append, List.dropWhile, ha]
    exact ih fun x hx => hall x (by simp [hx])

lemma alpha_not_body {c : Char} (h : isAsciiAlpha c = true) : isCsiBody c = false := by
  simp only [isAsciiAlpha, decide_eq_true_eq] at h
  simp only [isCsiBody, decide_eq_false_iff_not]
  omega

lemma matchAnsi_csi (params : List Char) (c : Char) (rest : List Char)
    (hp : ∀ x ∈ params, isCsiBody x = true) (hc : isAsciiAlpha c = true) :
    matchAnsi (ESC :: '[' :: (params ++ c :: rest)) = some rest := by
  simp only [matchAnsi]
  rw [if_pos]
  · rw [dropWhile_all_append isCsiBody c rest (alpha_not_body hc) params hp]
    simp [hc]
  · decide

lemma matchAnsi_osc (payload : List Char) (rest : List Char)
    (hp : ∀ x ∈ payload, x ≠ BEL) :
    matchAnsi (ESC :: ']' :: (payload ++ BEL :: rest)) = some rest := by
  simp only [matchAnsi]
  rw [if_neg, if_pos]
  · rw [dropWhile_all_append (fun c => c != BEL) BEL rest (by simp) payload
      (fun x hx => by simpa using hp x hx)]
  · decide
  · decide

lemma strip_ansi_codes_of_match {l r : List Char} (h : matchAnsi l = some r) :
    strip_ansi_codes l = strip_ansi_codes r := by
  have hlen := matchAnsi_length h
  unfold strip_ansi_codes
  match l, h, hlen with
  | [], h, _ => simp [matchAnsi] at h
  | c :: cs, h, hlen =>
    rw [show (c :: cs).length = cs.length + 1 from rfl, strip_ansi_fuel_step cs.length h]
    exact strip_ansi_fuel_congr cs.length r
      (by simp only [List.length_cons] at hlen; omega) r.length le_rfl

/-- Python `needle in haystack`: `needle` occurs as a contiguous substring. -/
def containsSub (needle : List Char) : List Char → Bool
  | [] => needle.isEmpty
  | c :: cs => needle.isPrefixOf (c :: cs) || containsSub needle cs

/-- The shell prompt pattern checked by the exec client's output filter. -/
def promptPat : List Char := "/app #".toList

/-- Module parameters of `berth_exec` that the session logic reads
(`self.api_key`, `self.command`, `self.timeout`). -/
structure ExecCfg where
  api_key : List Char
  command : List Char
  timeout : Nat
deriving DecidableEq

/-- Mutable session state of `BerthExecOperator`
(`self.session_id`, `session_ready`, `self.command_sent`,
`self.output_lines`, `self.exit_code`). -/
structure ExecSt where
  session_id : Option (List Char)
  session_ready : Bool
  command_sent : Bool
  output_lines : List (List Char)
  exit_code : Option Int
deriving DecidableEq

/-- Initial state set up by `BerthExecOperator.__init__` (with the loop-local
`session_ready = False`). -/
def init_exec_st : ExecSt :=
  { session_id := none, session_ready := false, command_sent := false,
    output_lines := [], exit_code := none }

/-- Inbound exec-client wire messages, after JSON parsing.  `terminal_output`
carries the base64-decoded, UTF-8-decoded payload (`msg_data.get('output','')`
decodes to `[]` exactly when the base64 field is absent or empty).  Optional
fields are `Option`s mirroring `dict.get` defaults. -/
inductive ExecMsg where
  | success (session_id : Option (List Char))
  | terminal_output (output : List Char)
  | terminal_close (exit_code : Option Int)
  | error (err : Option (List Char)) (context : List Char)
  | unknown
deriving DecidableEq

/-- One outcome of the blocking `ws.recv()` call: a message, a falsy (empty)
message, a transport-level `WebSocketTimeoutException`, or another
`WebSocketException`. -/
inductive RecvEvent (M : Type) where
  | msg (m : M)
  | empty
  | timeoutExc
  | wsExc (e : List Char)
deriving DecidableEq

/-- Model of `BerthExecOperator.should_skip_output`. -/
def should_skip_output (cfg : ExecCfg) (command_sent : Bool) (output : List Char) : Bool :=
  if command_sent = false then
    promptPat.isPrefixOf output
  else
    containsSub cfg.command output || promptPat.isPrefixOf output ||
      "exit".toList.isPrefixOf output

/-- Terminal outcomes of `BerthExecOperator.execute_command`'s receive loop:
normal return after `terminal_close`, or one of the `fail_json` exits
(overall timeout, `error` frame, `WebSocketException`), each carrying the
output captured so far.  `out_of_events` is the modelling artifact for a run
whose scripted event list is exhausted (the real loop would keep blocking). -/
inductive ExecLoopOutcome where
  | finished (st : ExecSt)
  | fail_timeout (msg : List Char) (output : List (List Char))
  | fail_error (msg : List Char) (output : List (List Char))
  | fail_ws (msg : List Char) (output : List (List Char))
  | out_of_events (st : ExecSt)
deriving DecidableEq

/--
The receive loop of `BerthExecOperator.execute_command`, body of `while True`.
Each scripted event is paired with the wall-clock seconds elapsed
(`time.time() - start_time`) when its iteration starts; the loop first checks
`elapsed > timeout`, then receives.  On `success` the client records the
session id, sends the command and then `exit` (outbound sends are I/O with no
effect on the result), and sets `command_sent`.  On `terminal_output` (only
once `session_ready`) it base64/UTF-8-decodes, strips ANSI codes and appends
the cleaned chunk unless it is empty or filtered by `should_skip_output`.
-/
def execute_command_loop (cfg : ExecCfg) :
    ExecSt → List (Nat × RecvEvent ExecMsg) → ExecLoopOutcome
  | st, [] => .out_of_events st
  | st, (t, ev) :: rest =>
    if t > cfg.timeout then
      .fail_timeout ("Command execution timed out after ".toList ++
        (toString cfg.timeout).toList ++ " seconds".toList) st.output_lines
    else
      match ev with
      | .empty => execute_command_loop cfg st rest
      | .timeoutExc => execute_command_loop cfg st rest
      | .wsExc e => .fail_ws ("WebSocket error: ".toList ++ e) st.output_lines
      | .msg (.success sid) =>
          execute_command_loop cfg
            { st with session_id := sid, session_ready := true, command_sent := true } rest
      | .msg (.terminal_output payload) =>
          if st.session_ready then
            if payload ≠ [] then
              if strip_ansi_codes payload ≠ [] ∧
                  should_skip_output cfg st.command_sent (strip_ansi_codes payload) = false then
                execute_command_loop cfg
                  { st with output_lines := st.output_lines ++ [strip_ansi_codes payload] } rest
              else
                execute_command_loop cfg st rest
            else
              execute_command_loop cfg st rest
          else
            execute_command_loop cfg st rest
      | .msg (.terminal_close ec) =>
          .finished { st with exit_code := some (ec.getD 0) }
      | .msg (.error e ctx) =>
          .fail_error ("Terminal error: ".toList ++
            (if ctx ≠ [] then e.getD "Unknown error".toList ++ ": ".toList ++ ctx
             else e.getD "Unknown error".toList)) st.output_lines
      | .msg .unknown => execute_command_loop cfg st rest

/-- The dict returned by `BerthExecOperator.execute`. -/
structure ExecResult where
  changed : Bool
  exit_code : Int
  stdout : List Char
  stderr : List Char
  output : List (List Char)
  failed : Bool
deriving DecidableEq

/-- Result construction at the end of `BerthExecOperator.execute`. -/
def exec_result (st : ExecSt) : ExecResult :=
  { changed := false
    exit_code := st.exit_code.getD 0
    stdout := st.output_lines.flatten
    stderr := []
    output := st.output_lines
    failed := match st.exit_code with
      | some ec => decide (ec ≠ 0)
      | none => false }

/-- The WebSocket handshake headers, the only place the API key flows
(`create_connection(..., header=[f"Authorization: Bearer {api_key}"])`). -/
def auth_headers (api_key : List Char) : List (List Char) :=
  ["Authorization: Bearer ".toList ++ api_key]

/-- Externally visible outcomes of one `berth_exec` invocation. -/
inductive ExecModuleOutcome where
  | ok (r : ExecResult)
  | fail_connect (msg : List Char)
  | fail_timeout (msg : List Char) (output : List (List Char))
  | fail_error (msg : List Char) (output : List (List Char))
  | fail_ws (msg : List Char) (output : List (List Char))
  | out_of_events (st : ExecSt)
deriving DecidableEq

/--
Model of `BerthExecOperator.execute`: run `execute_command` then build the result dict.
`conn` is the outcome of `websocket.create_connection` (`Except.error e` is a
raised exception rendered as `str(e)`); on connection failure the module fails
with no partial output. -/
def run_exec (cfg : ExecCfg) (conn : Except (List Char) Unit)
    (evs : List (Nat × RecvEvent ExecMsg)) : ExecModuleOutcome :=
  match conn with
  | .error e => .fail_connect ("Failed to connect to terminal WebSocket: ".toList ++ e)
  | .ok _ =>
    match execute_command_loop cfg init_exec_st evs with
    | .finished st => .ok (exec_result st)
    | .fail_timeout m o => .fail_timeout m o
    | .fail_error m o => .fail_error m o
    | .fail_ws m o => .fail_ws m o
    | .out_of_events st => .out_of_events st

/-- Python `s.rstrip('\n')`: remove all trailing newline characters. -/
def rstrip_nl (l : List Char) : List Char :=
  (l.reverse.dropWhile (fun c => c = '\n')).reverse

/-- Module parameters of `berth_stack` that the session logic reads. -/
structure StackCfg where
  api_key : List Char
  operation : List Char
  stack_name : List Char
  services : List (List Char)
  timeout : Nat
deriving DecidableEq

/-- Mutable state of `BerthStackOperator`
(`self.output_lines`, `self.success`, `self.exit_code`). -/
structure StackSt where
  output_lines : List (List Char)
  success : Option Bool
  exit_code : Option Int
deriving DecidableEq

/-- Initial state set up by `BerthStackOperator.__init__`. -/
def init_stack_st : StackSt :=
  { output_lines := [], success := none, exit_code := none }

/-- Inbound stack-client wire messages, after JSON parsing.  Fields read with a
`dict.get` default are modelled as the already-defaulted value where the
default is `''` (`stdout`/`stderr`/`progress` data and timestamp), and as
`Option`s where the claims distinguish presence (`complete.success`,
`complete.exitCode`, `error.data`). -/
inductive StackMsg where
  | stdout (data : List Char)
  | stderr (data : List Char)
  | progress (data : List Char) (timestamp : List Char)
  | complete (success : Option Bool) (exitCode : Option Int)
  | error (data : Option (List Char))
  | unknown
deriving DecidableEq

/-- Terminal outcomes of `BerthStackOperator.stream_operation`'s receive loop. -/
inductive StackLoopOutcome where
  | finished (st : StackSt)
  | fail_timeout (msg : List Char) (operation_id : List Char) (output : List (List Char))
  | fail_error (msg : List Char) (operation_id : List Char) (output : List (List Char))
  | fail_ws (msg : List Char) (operation_id : List Char) (output : List (List Char))
  | out_of_events (st : StackSt)
deriving DecidableEq

/-- Python truthiness of `self.success : Option Bool` (`None` is falsy). -/
def opt_truthy : Option Bool → Bool
  | some b => b
  | none => false

/--
The receive loop of `BerthStackOperator.stream_operation`, body of
`while True`, with the same timed-event convention as the exec loop.
`stdout`/`stderr` append the payload with trailing newlines stripped;
`progress` appends a `[timestamp] data` line; `complete` records the success
flag (default `False`) and exit code (default 1 on failure, 0 on success) and
returns; `error` fails with the message text and accumulated output.
-/
def stream_operation_loop (cfg : StackCfg) (operation_id : List Char) :
    StackSt → List (Nat × RecvEvent StackMsg) → StackLoopOutcome
  | st, [] => .out_of_events st
  | st, (t, ev) :: rest =>
    if t > cfg.timeout then
      .fail_timeout ("Operation timed out after ".toList ++
        (toString cfg.timeout).toList ++ " seconds".toList) operation_id st.output_lines
    else
      match ev with
      | .empty => stream_operation_loop cfg operation_id st rest
      | .timeoutExc => stream_operation_loop cfg operation_id st rest
      | .wsExc e =>
          .fail_ws ("WebSocket error: ".toList ++ e) operation_id st.output_lines
      | .msg (.stdout d) =>
          if d ≠ [] then
            stream_operation_loop cfg operation_id
              { st with output_lines := st.output_lines ++ [rstrip_nl d] } rest
          else
            stream_operation_loop cfg operation_id st rest
      | .msg (.stderr d) =>
          if d ≠ [] then
            stream_operation_loop cfg operation_id
              { st with output_lines := st.output_lines ++ [rstrip_nl d] } rest
          else
            stream_operation_loop cfg operation_id st rest
      | .msg (.progress d ts) =>
          if d ≠ [] then
            stream_operation_loop cfg operation_id
              { st with output_lines :=
                  st.output_lines ++ ["[".toList ++ ts ++ "] ".toList ++ d] } rest
          else
            stream_operation_loop cfg operation_id st rest
      | .msg (.complete s ec) =>
          .finished { st with
            success := some (s.getD false),
            exit_code := some (ec.getD (if s.getD false then 0 else 1)) }
      | .msg (.error d) =>
          .fail_error ("Operation error: ".toList ++ d.getD "Unknown error".toList)
            operation_id st.output_lines
      | .msg .unknown => stream_operation_loop cfg operation_id st rest

/-- Parsed outcome of the HTTP POST in `BerthStackOperator.start_operation`:
a 2xx response with the parsed body's `operationId` field, an `HTTPError`
with status code and body, a `URLError`, or another exception. -/
inductive HttpResp where
  | ok (operationId : Option (List Char))
  | http_error (code : Nat) (body : List Char)
  | url_error (e : List Char)
  | exc (e : List Char)
deriving DecidableEq

/-- Outcomes of `BerthStackOperator.start_operation`. -/
inductive StartOutcome where
  | ok (operation_id : List Char)
  | fail_no_id (msg : List Char)
  | fail_http (msg : List Char) (details : List Char)
  | fail_url (msg : List Char)
  | fail_exc (msg : List Char)
deriving DecidableEq

/-- Model of `BerthStackOperator.start_operation`: on 2xx, read `operationId` from the
body; a missing or falsy (empty) id is a hard failure.  HTTP / transport /
other errors each fail with their own message. -/
def start_operation : HttpResp → StartOutcome
  | .ok oid =>
    match oid with
    | some s =>
        if s = [] then .fail_no_id "No operation ID returned from server".toList
        else .ok s
    | none => .fail_no_id "No operation ID returned from server".toList
  | .http_error code body =>
      .fail_http ("Failed to start operation: HTTP ".toList ++ (toString code).toList) body
  | .url_error e =>
      .fail_url ("Failed to connect to Berth server: ".toList ++ e)
  | .exc e =>
      .fail_exc ("Unexpected error starting operation: ".toList ++ e)

/-- The dict returned by `BerthStackOperator.execute`. -/
structure StackResult where
  changed : Bool
  operation_id : List Char
  message : List Char
  exit_code : Option Int
  output : List (List Char)
  failed : Bool
deriving DecidableEq

/-- The human-readable message built by `BerthStackOperator.execute`. -/
def stack_result_message (cfg : StackCfg) (success : Bool) : List Char :=
  if success then
    "Successfully completed ".toList ++ cfg.operation ++ " operation on stack ".toList ++
      cfg.stack_name ++
      (if cfg.services ≠ [] then
        " on services ".toList ++ List.intercalate ", ".toList cfg.services
       else [])
  else
    "Failed ".toList ++ cfg.operation ++ " operation on stack ".toList ++
      cfg.stack_name ++
      (if cfg.services ≠ [] then
        " on services ".toList ++ List.intercalate ", ".toList cfg.services
       else [])

/-- Result construction at the end of `BerthStackOperator.execute`. -/
def stack_execute_result (cfg : StackCfg) (operation_id : List Char) (st : StackSt) :
    StackResult :=
  { changed := true
    operation_id := operation_id
    message := stack_result_message cfg (opt_truthy st.success)
    exit_code := st.exit_code
    output := st.output_lines
    failed := ! opt_truthy st.success }

/-- Externally visible outcomes of one `berth_stack` invocation. -/
inductive StackModuleOutcome where
  | ok (r : StackResult)
  | fail_start_no_id (msg : List Char)
  | fail_start_http (msg : List Char) (details : List Char)
  | fail_start_url (msg : List Char)
  | fail_start_exc (msg : List Char)
  | fail_connect (msg : List Char) (operation_id : List Char)
  | fail_timeout (msg : List Char) (operation_id : List Char) (output : List (List Char))
  | fail_error (msg : List Char) (operation_id : List Char) (output : List (List Char))
  | fail_ws (msg : List Char) (operation_id : List Char) (output : List (List Char))
  | out_of_events (st : StackSt)
deriving DecidableEq

/--
Model of `BerthStackOperator.execute`: `start_operation`, then `stream_operation`,
then the result dict.  `conn` is the outcome of the WebSocket
`create_connection` for the streaming phase; it is only consulted after a
successful start (the WebSocket is never attempted when the start phase
fails). -/
def run_stack (cfg : StackCfg) (resp : HttpResp) (conn : Except (List Char) Unit)
    (evs : List (Nat × RecvEvent StackMsg)) : StackModuleOutcome :=
  match start_operation resp with
  | .fail_no_id m => .fail_start_no_id m
  | .fail_http m d => .fail_start_http m d
  | .fail_url m => .fail_start_url m
  | .fail_exc m => .fail_start_exc m
  | .ok oid =>
    match conn with
    | .error e => .fail_connect ("Failed to connect to WebSocket: ".toList ++ e) oid
    | .ok _ =>
      match stream_operation_loop cfg oid init_stack_st evs with
      | .finished st => .ok (stack_execute_result cfg oid st)
      | .fail_timeout m o out => .fail_timeout m o out
      | .fail_error m o out => .fail_error m o out
      | .fail_ws m o out => .fail_ws m o out
      | .out_of_events st => .out_of_events st

/-- A concrete exec-client configuration for the scripted-peer scenarios. -/
def demo_cfg : ExecCfg :=
  { api_key := "brth_key_one".toList, command := "ls -la".toList, timeout := 30 }

/-- Scripted peer for C2: `success`, prompt echo, command echo, real output,
`terminal_close{exit_code: 0}`. -/
def demo_events : List (Nat × RecvEvent ExecMsg) :=
  [ (0, .msg (.success (some "sess-1".toList))),
    (1, .msg (.terminal_output "/app # ".toList)),
    (1, .msg (.terminal_output "ls -la\r\n".toList)),
    (2, .msg (.terminal_output "total 8\r\n".toList)),
    (2, .msg (.terminal_close (some 0))) ]

/-- The same scripted peer but closing with `terminal_close{exit_code: 2}`. -/
def demo_events_exit2 : List (Nat × RecvEvent ExecMsg) :=
  [ (0, .msg (.success (some "sess-1".toList))),
    (1, .msg (.terminal_output "/app # ".toList)),
    (1, .msg (.terminal_output "ls -la\r\n".toList)),
    (2, .msg (.terminal_output "total 8\r\n".toList)),
    (2, .msg (.terminal_close (some 2))) ]

/-- A concrete stack-client configuration for the streamed-sequence scenario. -/
def demo_stack_cfg : StackCfg :=
  { api_key := "brth_key_one".toList, operation := "restart".toList,
    stack_name := "myapp".toList, services := [], timeout := 600 }

/-- Streamed sequence for C5: `stdout{"a"}`, `progress{"b", ts=T}`,
`complete{success: true}`. -/
def demo_stack_events : List (Nat × RecvEvent StackMsg) :=
  [ (0, .msg (.stdout "a".toList)),
    (0, .msg (.progress "b".toList "T".toList)),
    (1, .msg (.complete (some true) none)) ]

end Berth

/--
C1: the exec client's ANSI stripping removes exactly the CSI sequences
(`ESC [ body letter`) and OSC sequences (`ESC ] payload BEL`) and leaves every
other byte untouched; in particular, on input containing no such escape
sequence, `strip_ansi_codes` is the identity.
-/
theorem strip_ansi_codes_exact :
    (∀ l : List Char, Berth.containsAnsi l = false → Berth.strip_ansi_codes l = l) ∧
    (∀ params : List Char, ∀ c : Char, ∀ rest : List Char,
      (∀ x ∈ params, Berth.isCsiBody x = true) → Berth.isAsciiAlpha c = true →
      Berth.strip_ansi_codes (Berth.ESC :: '[' :: (params ++ c :: rest)) =
        Berth.strip_ansi_codes rest) ∧
    (∀ payload rest : List Char, (∀ x ∈ payload, x ≠ Berth.BEL) →
      Berth.strip_ansi_codes (Berth.ESC :: ']' :: (payload ++ Berth.BEL :: rest)) =
        Berth.strip_ansi_codes rest) := by
  refine ⟨fun l hc => Berth.strip_ansi_fuel_clean l.length l le_rfl hc, ?_, ?_⟩
  · intro params c rest hp hc
    exact Berth.strip_ansi_codes_of_match (Berth.matchAnsi_csi params c rest hp hc)
  · intro payload rest hp
    exact Berth.strip_ansi_codes_of_match (Berth.matchAnsi_osc payload rest hp)

/--
Witness for C1: already-clean text is returned unchanged, a concrete CSI
sequence `ESC [ 0 m` is removed, and a concrete OSC sequence `ESC ] x BEL`
is removed.
-/
theorem strip_ansi_codes_exact_witness :
    (Berth.containsAnsi "total 8".toList = false ∧
      Berth.strip_ansi_codes "total 8".toList = "total 8".toList) ∧
    Berth.strip_ansi_codes (Berth.ESC :: '[' :: (['0'] ++ 'm' :: "ok".toList)) =
      Berth.strip_ansi_codes "ok".toList ∧
    Berth.strip_ansi_codes (Berth.ESC :: ']' :: (['x'] ++ Berth.BEL :: "ok".toList)) =
      Berth.strip_ansi_codes "ok".toList :=
  ⟨⟨by decide, strip_ansi_codes_exact.1 _ (by decide)⟩,
    strip_ansi_codes_exact.2.1 ['0'] 'm' "ok".toList (by decide) (by decide),
    strip_ansi_codes_exact.2.2 ['x'] "ok".toList (by decide)⟩

/--
C2: for cleaned exec output, before the command is sent a line is dropped iff
it starts with the `/app #` prompt pattern; after the command is sent a line is
dropped iff it contains the command text, starts with the prompt pattern, or
starts with `exit`; every other non-empty cleaned chunk is appended; and on the
scripted peer success / prompt echo / command echo / real output /
terminal_close{exit_code: 0}, the captured output is exactly the real output
line and `failed = false`.
-/
theorem exec_output_filter :
    (∀ cfg : Berth.ExecCfg, ∀ out : List Char,
      Berth.should_skip_output cfg false out = Berth.promptPat.isPrefixOf out) ∧
    (∀ cfg : Berth.ExecCfg, ∀ out : List Char,
      Berth.should_skip_output cfg true out =
        (Berth.containsSub cfg.command out || Berth.promptPat.isPrefixOf out ||
          "exit".toList.isPrefixOf out)) ∧
    (∀ cfg : Berth.ExecCfg, ∀ st : Berth.ExecSt, ∀ t : Nat,
      ∀ rest : List (Nat × Berth.RecvEvent Berth.ExecMsg), ∀ payload : List Char,
      ¬ t > cfg.timeout → st.session_ready = true →
      Berth.strip_ansi_codes payload ≠ [] →
      Berth.should_skip_output cfg st.command_sent (Berth.strip_ansi_codes payload) = false →
      Berth.execute_command_loop cfg st ((t, .msg (.terminal_output payload)) :: rest) =
        Berth.execute_command_loop cfg
          { st with output_lines := st.output_lines ++ [Berth.strip_ansi_codes payload] }
          rest) ∧
    (∀ cfg : Berth.ExecCfg, ∀ st : Berth.ExecSt, ∀ t : Nat,
      ∀ rest : List (Nat × Berth.RecvEvent Berth.ExecMsg), ∀ payload : List Char,
      ¬ t > cfg.timeout → st.session_ready = true →
      (Berth.strip_ansi_codes payload = [] ∨
        Berth.should_skip_output cfg st.command_sent (Berth.strip_ansi_codes payload) = true) →
      Berth.execute_command_loop cfg st ((t, .msg (.terminal_output payload)) :: rest) =
        Berth.execute_command_loop cfg st rest) ∧
    Berth.run_exec Berth.demo_cfg (.ok ()) Berth.demo_events =
      .ok { changed := false, exit_code := 0, stdout := "total 8\r\n".toList,
            stderr := [], output := ["total 8\r\n".toList], failed := false } := by
  refine ⟨?_, ?_, ?_, ?_, by decide⟩
  · intro cfg out
    simp [Berth.should_skip_output]
  · intro cfg out
    simp [Berth.should_skip_output]
  · intro cfg st t rest payload ht hr hne hskip
    have hp : payload ≠ [] := by
      intro h
      subst h
      exact hne rfl
    simp only [Berth.execute_command_loop, if_neg ht, hr, if_true, ne_eq, hp,
      not_false_eq_true, hne, hskip, and_self, if_pos]
  · intro cfg st t rest payload ht hr hcase
    simp only [Berth.execute_command_loop, if_neg ht, hr, if_true]
    by_cases hp : payload = []
    · simp [hp]
    · simp only [ne_eq, hp, not_false_eq_true, if_true]
      rcases hcase with hc | hc
      · simp [hc]
      · simp [hc]

/--
Witness for C2: from a ready session with the command sent, the cleaned real
output line `total 8` is appended to the captured output.
-/
theorem exec_output_filter_witness :
    Berth.execute_command_loop Berth.demo_cfg
      { Berth.init_exec_st with session_ready := true, command_sent := true }
      [(0, .msg (.terminal_output "total 8\r\n".toList))] =
    Berth.execute_command_loop Berth.demo_cfg
      { Berth.init_exec_st with
          session_ready := true
          command_sent := true
          output_lines := ["total 8\r\n".toList] } [] :=
  exec_output_filter.2.2.1 Berth.demo_cfg
    { Berth.init_exec_st with session_ready := true, command_sent := true }
    0 [] "total 8\r\n".toList (by decide) rfl (by decide) (by decide)

/--
C3: when the exec session ends with `terminal_close`, the loop returns with
the recorded exit code (message value, defaulting to 0 when absent), and the
final result has `stdout` the concatenation of captured lines, empty `stderr`,
`output` the line list, `exit_code` the recorded code, and `failed` iff that
code is nonzero (`failed = false` when no exit code was ever recorded); with
`terminal_close{exit_code: 2}` the scripted run yields `failed = true` and
`exit_code = 2`.
-/
theorem exec_close_result :
    (∀ cfg : Berth.ExecCfg, ∀ st : Berth.ExecSt, ∀ t : Nat, ∀ ec : Option Int,
      ∀ rest : List (Nat × Berth.RecvEvent Berth.ExecMsg), ¬ t > cfg.timeout →
      Berth.execute_command_loop cfg st ((t, .msg (.terminal_close ec)) :: rest) =
        .finished { st with exit_code := some (ec.getD 0) }) ∧
    (∀ st : Berth.ExecSt, ∀ ec0 : Int, st.exit_code = some ec0 →
      Berth.exec_result st =
        { changed := false, exit_code := ec0, stdout := st.output_lines.flatten,
          stderr := [], output := st.output_lines, failed := decide (ec0 ≠ 0) }) ∧
    (∀ st : Berth.ExecSt, st.exit_code = none → (Berth.exec_result st).failed = false) ∧
    Berth.run_exec Berth.demo_cfg (.ok ()) Berth.demo_events_exit2 =
      .ok { changed := false, exit_code := 2, stdout := "total 8\r\n".toList,
            stderr := [], output := ["total 8\r\n".toList], failed := true } := by
  refine ⟨?_, ?_, ?_, by decide⟩
  · intro cfg st t ec rest ht
    simp [Berth.execute_command_loop, if_neg ht]
  · intro st ec0 h
    simp [Berth.exec_result, h]
  · intro st h
    simp [Berth.exec_result, h]

/--
Witness for C3: a `terminal_close` with exit code 2 ends the loop with the
exit code recorded as 2.
-/
theorem exec_close_result_witness :
    Berth.execute_command_loop Berth.demo_cfg Berth.init_exec_st
      [(0, .msg (.terminal_close (some 2)))] =
      .finished { Berth.init_exec_st with exit_code := some 2 } :=
  exec_close_result.1 Berth.demo_cfg Berth.init_exec_st 0 (some 2) [] (by decide)

/--
C10: a `terminal_output` message received while the session is not yet marked
ready (no `success` seen) is discarded entirely, whatever its payload.
-/
theorem pre_success_output_discarded :
    ∀ cfg : Berth.ExecCfg, ∀ st : Berth.ExecSt, ∀ t : Nat, ∀ payload : List Char,
    ∀ rest : List (Nat × Berth.RecvEvent Berth.ExecMsg),
    ¬ t > cfg.timeout → st.session_ready = false →
    Berth.execute_command_loop cfg st ((t, .msg (.terminal_output payload)) :: rest) =
      Berth.execute_command_loop cfg st rest := by
  intro cfg st t payload rest ht hr
  simp [Berth.execute_command_loop, if_neg ht, hr]

/--
Witness for C10: a pre-`success` `terminal_output` leaves the initial state
untouched.
-/
theorem pre_success_output_discarded_witness :
    Berth.execute_command_loop Berth.demo_cfg Berth.init_exec_st
      [(0, .msg (.terminal_output "/app # ".toList))] =
      Berth.execute_command_loop Berth.demo_cfg Berth.init_exec_st [] :=
  pre_success_output_discarded Berth.demo_cfg Berth.init_exec_st 0
    "/app # ".toList [] (by decide) rfl

/--
C7: an `error` message at any point of either stream terminates the session
and fails with the error text (for the exec client, the combined error/context
message) together with all output captured so far.
-/
theorem error_frame_terminates :
    (∀ cfg : Berth.ExecCfg, ∀ st : Berth.ExecSt, ∀ t : Nat,
      ∀ e : Option (List Char), ∀ ctx : List Char,
      ∀ rest : List (Nat × Berth.RecvEvent Berth.ExecMsg), ¬ t > cfg.timeout →
      Berth.execute_command_loop cfg st ((t, .msg (.error e ctx)) :: rest) =
        .fail_error ("Terminal error: ".toList ++
          (if ctx ≠ [] then e.getD "Unknown error".toList ++ ": ".toList ++ ctx
           else e.getD "Unknown error".toList)) st.output_lines) ∧
    (∀ cfg : Berth.StackCfg, ∀ oid : List Char, ∀ st : Berth.StackSt, ∀ t : Nat,
      ∀ d : Option (List Char),
      ∀ rest : List (Nat × Berth.RecvEvent Berth.StackMsg), ¬ t > cfg.timeout →
      Berth.stream_operation_loop cfg oid st ((t, .msg (.error d)) :: rest) =
        .fail_error ("Operation error: ".toList ++ d.getD "Unknown error".toList)
          oid st.output_lines) := by
  constructor
  · intro cfg st t e ctx rest ht
    simp [Berth.execute_command_loop, if_neg ht]
  · intro cfg oid st t d rest ht
    simp [Berth.stream_operation_loop, if_neg ht]

/--
Witness for C7: a concrete `error` frame with context fails the exec session
with the combined message and the (empty) captured output.
-/
theorem error_frame_terminates_witness :
    Berth.execute_command_loop Berth.demo_cfg Berth.init_exec_st
      [(0, .msg (.error (some "boom".toList) "while running".toList))] =
      .fail_error "Terminal error: boom: while running".toList [] :=
  error_frame_terminates.1 Berth.demo_cfg Berth.init_exec_st 0
    (some "boom".toList) "while running".toList [] (by decide)

/--
C8: for both clients a transport-level receive timeout never terminates the
session (the loop retries), while exceeding the overall wall-clock timeout,
checked once per iteration, fails with a timeout message and the output
captured so far, regardless of what the next receive would have produced.
-/
theorem timeout_discipline :
    (∀ cfg : Berth.ExecCfg, ∀ st : Berth.ExecSt, ∀ t : Nat,
      ∀ rest : List (Nat × Berth.RecvEvent Berth.ExecMsg), ¬ t > cfg.timeout →
      Berth.execute_command_loop cfg st ((t, .timeoutExc) :: rest) =
        Berth.execute_command_loop cfg st rest) ∧
    (∀ cfg : Berth.ExecCfg, ∀ st : Berth.ExecSt, ∀ t : Nat,
      ∀ ev : Berth.RecvEvent Berth.ExecMsg,
      ∀ rest : List (Nat × Berth.RecvEvent Berth.ExecMsg), t > cfg.timeout →
      Berth.execute_command_loop cfg st ((t, ev) :: rest) =
        .fail_timeout ("Command execution timed out after ".toList ++
          (toString cfg.timeout).toList ++ " seconds".toList) st.output_lines) ∧
    (∀ cfg : Berth.StackCfg, ∀ oid : List Char, ∀ st : Berth.StackSt, ∀ t : Nat,
      ∀ rest : List (Nat × Berth.RecvEvent Berth.StackMsg), ¬ t > cfg.timeout →
      Berth.stream_operation_loop cfg oid st ((t, .timeoutExc) :: rest) =
        Berth.stream_operation_loop cfg oid st rest) ∧
    (∀ cfg : Berth.StackCfg, ∀ oid : List Char, ∀ st : Berth.StackSt, ∀ t : Nat,
      ∀ ev : Berth.RecvEvent Berth.StackMsg,
      ∀ rest : List (Nat × Berth.RecvEvent Berth.StackMsg), t > cfg.timeout →
      Berth.stream_operation_loop cfg oid st ((t, ev) :: rest) =
        .fail_timeout ("Operation timed out after ".toList ++
          (toString cfg.timeout).toList ++ " seconds".toList) oid st.output_lines) := by
  refine ⟨?_, ?_, ?_, ?_⟩
  · intro cfg st t rest ht
    simp [Berth.execute_command_loop, if_neg ht]
  · intro cfg st t ev rest ht
    simp [Berth.execute_command_loop, if_pos ht]
  · intro cfg oid st t rest ht
    simp [Berth.stream_operation_loop, if_neg ht]
  · intro cfg oid st t ev rest ht
    simp [Berth.stream_operation_loop, if_pos ht]

/--
Witness for C8: within the 30-second deadline a transport timeout is retried;
at 31 seconds elapsed the exec session fails with the timeout message.
-/
theorem timeout_discipline_witness :
    (Berth.execute_command_loop Berth.demo_cfg Berth.init_exec_st
        [(0, .timeoutExc)] =
      Berth.execute_command_loop Berth.demo_cfg Berth.init_exec_st []) ∧
    Berth.execute_command_loop Berth.demo_cfg Berth.init_exec_st
        [(31, .timeoutExc)] =
      .fail_timeout "Command execution timed out after 30 seconds".toList [] :=
  ⟨timeout_discipline.1 Berth.demo_cfg Berth.init_exec_st 0 [] (by decide),
    timeout_discipline.2.1 Berth.demo_cfg Berth.init_exec_st 31 .timeoutExc []
      (by decide)⟩

/--
C4: a 2xx POST response whose parsed body lacks an operation identifier (or
carries a falsy one) is a hard `No operation ID returned from server` failure,
and the streaming phase never runs: the module outcome is the start-phase
failure whatever the WebSocket connection or stream would have produced.
-/
theorem stack_missing_operation_id :
    (Berth.start_operation (.ok none) =
      .fail_no_id "No operation ID returned from server".toList) ∧
    (Berth.start_operation (.ok (some [])) =
      .fail_no_id "No operation ID returned from server".toList) ∧
    (∀ cfg : Berth.StackCfg, ∀ conn : Except (List Char) Unit,
      ∀ evs : List (Nat × Berth.RecvEvent Berth.StackMsg),
      ∀ oid : Option (List Char), oid = none ∨ oid = some [] →
      Berth.run_stack cfg (.ok oid) conn evs =
        .fail_start_no_id "No operation ID returned from server".toList) := by
  refine ⟨rfl, rfl, ?_⟩
  intro cfg conn evs oid hcase
  rcases hcase with h | h <;> subst h <;> rfl

/--
Witness for C4: with no `operationId` in the POST body, the stack module fails
before consulting the stream, for a concrete configuration and scripted stream.
-/
theorem stack_missing_operation_id_witness :
    Berth.run_stack Berth.demo_stack_cfg (.ok none) (.ok ()) Berth.demo_stack_events =
      .fail_start_no_id "No operation ID returned from server".toList :=
  stack_missing_operation_id.2.2 Berth.demo_stack_cfg (.ok ())
    Berth.demo_stack_events none (Or.inl rfl)

/--
C5: in the stack stream, `stdout`/`stderr` messages append their payload with
trailing newlines stripped and `progress` messages append a
timestamp-prefixed line; the streamed sequence `stdout{"a"}`,
`progress{"b", ts=T}`, `complete{success: true}` yields
`output = ["a", "[T] b"]`, `failed = false` and exit code 0.
-/
theorem stack_stream_appends :
    (∀ cfg : Berth.StackCfg, ∀ oid : List Char, ∀ st : Berth.StackSt, ∀ t : Nat,
      ∀ d : List Char, ∀ rest : List (Nat × Berth.RecvEvent Berth.StackMsg),
      ¬ t > cfg.timeout → d ≠ [] →
      Berth.stream_operation_loop cfg oid st ((t, .msg (.stdout d)) :: rest) =
        Berth.stream_operation_loop cfg oid
          { st with output_lines := st.output_lines ++ [Berth.rstrip_nl d] } rest) ∧
    (∀ cfg : Berth.StackCfg, ∀ oid : List Char, ∀ st : Berth.StackSt, ∀ t : Nat,
      ∀ d : List Char, ∀ rest : List (Nat × Berth.RecvEvent Berth.StackMsg),
      ¬ t > cfg.timeout → d ≠ [] →
      Berth.stream_operation_loop cfg oid st ((t, .msg (.stderr d)) :: rest) =
        Berth.stream_operation_loop cfg oid
          { st with output_lines := st.output_lines ++ [Berth.rstrip_nl d] } rest) ∧
    (∀ cfg : Berth.StackCfg, ∀ oid : List Char, ∀ st : Berth.StackSt, ∀ t : Nat,
      ∀ d ts : List Char, ∀ rest : List (Nat × Berth.RecvEvent Berth.StackMsg),
      ¬ t > cfg.timeout → d ≠ [] →
      Berth.stream_operation_loop cfg oid st ((t, .msg (.progress d ts)) :: rest) =
        Berth.stream_operation_loop cfg oid
          { st with output_lines :=
              st.output_lines ++ ["[".toList ++ ts ++ "] ".toList ++ d] } rest) ∧
    Berth.run_stack Berth.demo_stack_cfg (.ok (some "op-1".toList)) (.ok ())
        Berth.demo_stack_events =
      .ok { changed := true, operation_id := "op-1".toList,
            message := "Successfully completed restart operation on stack myapp".toList,
            exit_code := some 0, output := ["a".toList, "[T] b".toList],
            failed := false } := by
  refine ⟨?_, ?_, ?_, by decide⟩
  · intro cfg oid st t d rest ht hd
    simp [Berth.stream_operation_loop, if_neg ht, hd]
  · intro cfg oid st t d rest ht hd
    simp [Berth.stream_operation_loop, if_neg ht, hd]
  · intro cfg oid st t d ts rest ht hd
    simp [Berth.stream_operation_loop, if_neg ht, hd]

/--
Witness for C5: a concrete `stdout{"a\n"}` message appends `"a"` (trailing
newline stripped) to the captured output.
-/
theorem stack_stream_appends_witness :
    Berth.stream_operation_loop Berth.demo_stack_cfg "op-1".toList
        Berth.init_stack_st [(0, .msg (.stdout "a\n".toList))] =
      Berth.stream_operation_loop Berth.demo_stack_cfg "op-1".toList
        { Berth.init_stack_st with output_lines := ["a".toList] } [] :=
  stack_stream_appends.1 Berth.demo_stack_cfg "op-1".toList Berth.init_stack_st
    0 "a\n".toList [] (by decide) (by decide)

/--
C6: a `complete` message ends the stack stream with the success flag taken
from the message (default false) and the exit code defaulting to 1 on failure
and 0 on success when absent; the final result always has `changed = true` and
`failed` equal to the negation of the recorded success flag.
-/
theorem stack_complete_result :
    (∀ cfg : Berth.StackCfg, ∀ oid : List Char, ∀ st : Berth.StackSt, ∀ t : Nat,
      ∀ s : Option Bool, ∀ ec : Option Int,
      ∀ rest : List (Nat × Berth.RecvEvent Berth.StackMsg), ¬ t > cfg.timeout →
      Berth.stream_operation_loop cfg oid st ((t, .msg (.complete s ec)) :: rest) =
        .finished { st with
          success := some (s.getD false)
          exit_code := some (ec.getD (if s.getD false then 0 else 1)) }) ∧
    (∀ cfg : Berth.StackCfg, ∀ oid : List Char, ∀ st : Berth.StackSt, ∀ su : Bool,
      st.success = some su →
      (Berth.stack_execute_result cfg oid st).changed = true ∧
      (Berth.stack_execute_result cfg oid st).failed = !su) := by
  constructor
  · intro cfg oid st t s ec rest ht
    simp [Berth.stream_operation_loop, if_neg ht]
  · intro cfg oid st su h
    simp [Berth.stack_execute_result, Berth.opt_truthy, h]

/--
Witness for C6: a `complete{success: false}` with no exit code records
success `false` and exit code 1.
-/
theorem stack_complete_result_witness :
    Berth.stream_operation_loop Berth.demo_stack_cfg "op-1".toList
        Berth.init_stack_st [(0, .msg (.complete (some false) none))] =
      .finished { Berth.init_stack_st with
        success := some false
        exit_code := some 1 } :=
  stack_complete_result.1 Berth.demo_stack_cfg "op-1".toList Berth.init_stack_st
    0 (some false) none [] (by decide)

lemma should_skip_output_key_invariant (k1 k2 cmd : List Char) (tm : Nat) :
    ∀ b : Bool, ∀ out : List Char,
      Berth.should_skip_output ⟨k1, cmd, tm⟩ b out =
        Berth.should_skip_output ⟨k2, cmd, tm⟩ b out := by
  intro b out
  simp [Berth.should_skip_output]

lemma exec_loop_key_invariant (k1 k2 cmd : List Char) (tm : Nat) :
    ∀ evs : List (Nat × Berth.RecvEvent Berth.ExecMsg), ∀ st : Berth.ExecSt,
      Berth.execute_command_loop ⟨k1, cmd, tm⟩ st evs =
        Berth.execute_command_loop ⟨k2, cmd, tm⟩ st evs := by
  intro evs
  induction evs with
  | nil => intro st; rfl
  | cons head rest ih =>
    intro st
    obtain ⟨t, ev⟩ := head
    rcases ev with m | _ | _ | e <;>
      try rcases m with sid | p | ec | ⟨e, ctx⟩ | _
    all_goals first
      | (simp only [Berth.execute_command_loop,
            should_skip_output_key_invariant k1 k2 cmd tm]
         split_ifs <;> first | exact ih _ | rfl)
      | (simp only [Berth.execute_command_loop]
         first | rfl | exact ih _)
      | simp only [Berth.execute_command_loop]

lemma stream_loop_key_invariant (k1 k2 op sn : List Char)
    (svcs : List (List Char)) (tm : Nat) (oid : List Char) :
    ∀ evs : List (Nat × Berth.RecvEvent Berth.StackMsg), ∀ st : Berth.StackSt,
      Berth.stream_operation_loop ⟨k1, op, sn, svcs, tm⟩ oid st evs =
        Berth.stream_operation_loop ⟨k2, op, sn, svcs, tm⟩ oid st evs := by
  intro evs
  induction evs with
  | nil => intro st; rfl
  | cons head rest ih =>
    intro st
    obtain ⟨t, ev⟩ := head
    rcases ev with m | _ | _ | e <;>
      try rcases m with d | d | ⟨d, ts⟩ | ⟨s, ec⟩ | d | _
    all_goals first
      | (simp only [Berth.stream_operation_loop]
         split_ifs <;> first | exact ih _ | rfl)
      | (simp only [Berth.stream_operation_loop]
         first | rfl | exact ih _)
      | simp only [Berth.stream_operation_loop]

/--
C9: the API key never flows into the returned or failure result data of either
client: the full module outcome, on every exit path (connection failure,
protocol error, timeout, transport failure, normal completion), is invariant
under changing the API key, all other inputs and received events being equal.
(The key is used only for the `Authorization: Bearer` handshake headers.)
-/
theorem api_key_not_in_results :
    (∀ k1 k2 cmd : List Char, ∀ tm : Nat, ∀ conn : Except (List Char) Unit,
      ∀ evs : List (Nat × Berth.RecvEvent Berth.ExecMsg),
      Berth.run_exec ⟨k1, cmd, tm⟩ conn evs =
        Berth.run_exec ⟨k2, cmd, tm⟩ conn evs) ∧
    (∀ k1 k2 op sn : List Char, ∀ svcs : List (List Char), ∀ tm : Nat,
      ∀ resp : Berth.HttpResp, ∀ conn : Except (List Char) Unit,
      ∀ evs : List (Nat × Berth.RecvEvent Berth.StackMsg),
      Berth.run_stack ⟨k1, op, sn, svcs, tm⟩ resp conn evs =
        Berth.run_stack ⟨k2, op, sn, svcs, tm⟩ resp conn evs) := by
  constructor
  · intro k1 k2 cmd tm conn evs
    cases conn with
    | error e => rfl
    | ok u =>
      simp only [Berth.run_exec]
      rw [exec_loop_key_invariant k1 k2 cmd tm evs Berth.init_exec_st]
  · intro k1 k2 op sn svcs tm resp conn evs
    have hres : ∀ oid : List Char, ∀ st : Berth.StackSt,
        Berth.stack_execute_result ⟨k1, op, sn, svcs, tm⟩ oid st =
          Berth.stack_execute_result ⟨k2, op, sn, svcs, tm⟩ oid st :=
      fun _ _ => rfl
    cases hso : Berth.start_operation resp with
    | ok oid =>
      cases conn with
      | error e => simp only [Berth.run_stack, hso]
      | ok u =>
        simp only [Berth.run_stack, hso, hres,
          stream_loop_key_invariant k1 k2 op sn svcs tm oid evs Berth.init_stack_st]
    | fail_no_id m => simp only [Berth.run_stack, hso]
    | fail_http m d => simp only [Berth.run_stack, hso]
    | fail_url m => simp only [Berth.run_stack, hso]
    | fail_exc m => simp only [Berth.run_stack, hso]
